import Mathlib

/-!
# Verification of the `pythonize` serializer (`src/ser.rs`)

Shallow embedding of the serde-to-Python conversion bridge in `src/ser.rs`:
the serde data model becomes `Value`, Python objects become `PyObj`, the
pluggable `PythonizeTypes` container adapter becomes `Adapter`, and each
`Serializer` / `Serialize*` trait method becomes a Lean function mirroring
its Rust body.  `Outcome` distinguishes a returned `Err` from a Rust panic
(the `expect` in `PythonMapSerializer::serialize_value`).
-/

set_option autoImplicit false

namespace Pythonize

/-- Modelled from the spec: the error kinds of the crate's error module
(`crate::error::PythonizeError`, not present under `src/`): an
`AdapterFailure` wrapping a foreign-runtime failure, and a
`ProtocolViolation` for out-of-order compound-serializer calls. -/
inductive PErr where
  | adapterFailure (msg : String)
  | protocolViolation (msg : String)
deriving DecidableEq, Repr

/-- Result of running a piece of the serializer: a returned `Ok` value, a
returned `Err` (Rust `Result::Err`), or a process abort (Rust `panic!` /
`Option::expect`), which is not a returned error. -/
inductive Outcome (α : Type) where
  | ok (a : α)
  | err (e : PErr)
  | panic (msg : String)
deriving Repr, DecidableEq

def Outcome.bind {α β : Type} : Outcome α → (α → Outcome β) → Outcome β
  | .ok a, f => f a
  | .err e, _ => .err e
  | .panic m, _ => .panic m

instance : Monad Outcome where
  pure := .ok
  bind := Outcome.bind

/-- The serde data model: one constructor per `Serializer` entry point that
`src/ser.rs` implements (all integer widths are collapsed into one
mathematical integer constructor, since every width is converted by the
same lossless `into_py` call). -/
inductive Value where
  | bool (b : Bool)
  | int (n : Int)
  | char (c : Char)
  | str (s : String)
  | bytes (bs : List Nat)
  | none
  | some (v : Value)
  | unit
  | unitStruct (name : String)
  | unitVariant (name : String) (variant : String)
  | newtypeStruct (name : String) (v : Value)
  | newtypeVariant (name : String) (variant : String) (v : Value)
  | seq (len : Option Nat) (elems : List Value)
  | tuple (elems : List Value)
  | tupleStruct (name : String) (elems : List Value)
  | tupleVariant (name : String) (variant : String) (elems : List Value)
  | map (entries : List (Value × Value))
  | struct (name : String) (fields : List (String × Value))
  | structVariant (name : String) (variant : String) (fields : List (String × Value))
deriving Repr

/-- A Python object.  Adapter-built mappings and sequences carry the tag of
the concrete class the adapter binds (`"dict"` / `"list"` for the default
`PythonizeDefault` binding); `tuple` is the concrete `PyTuple` type that
`SerializeTuple::end` builds directly. -/
inductive PyObj where
  | none
  | bool (b : Bool)
  | int (n : Int)
  | str (s : String)
  | bytes (bs : List Nat)
  | tuple (items : List PyObj)
  | seqObj (tag : String) (items : List PyObj)
  | mapObj (tag : String) (entries : List (PyObj × PyObj))
deriving Repr

mutual
/-- Boolean equality on Python objects (structural). -/
def PyObj.beq : PyObj → PyObj → Bool
  | .none, .none => true
  | .bool a, .bool b => a == b
  | .int a, .int b => a == b
  | .str a, .str b => a == b
  | .bytes a, .bytes b => a == b
  | .tuple a, .tuple b => PyObj.beqList a b
  | .seqObj t a, .seqObj u b => t == u && PyObj.beqList a b
  | .mapObj t a, .mapObj u b => t == u && PyObj.beqEntries a b
  | _, _ => false

def PyObj.beqList : List PyObj → List PyObj → Bool
  | [], [] => true
  | a :: as, b :: bs => PyObj.beq a b && PyObj.beqList as bs
  | _, _ => false

def PyObj.beqEntries : List (PyObj × PyObj) → List (PyObj × PyObj) → Bool
  | [], [] => true
  | (k1, v1) :: as, (k2, v2) :: bs =>
      PyObj.beq k1 k2 && PyObj.beq v1 v2 && PyObj.beqEntries as bs
  | _, _ => false
end

mutual
/-- Python hashability: leaves are hashable, tuples are hashable when all
items are, lists and mappings are unhashable (`set_item` with an
unhashable key raises, which `ser.rs` propagates through `?`). -/
def PyObj.hashable : PyObj → Bool
  | .none => true
  | .bool _ => true
  | .int _ => true
  | .str _ => true
  | .bytes _ => true
  | .tuple items => PyObj.hashableList items
  | .seqObj _ _ => false
  | .mapObj _ _ => false

def PyObj.hashableList : List PyObj → Bool
  | [] => true
  | x :: xs => x.hashable && PyObj.hashableList xs
end

/-- Key/value-store update on a mapping's entry list: replace in place the
value of an already-present key (keeping its original position, as a
Python mapping does), otherwise append a new entry.  Key comparison is
Python `==`, modelled by structural equality `PyObj.beq`. -/
def entriesSet : List (PyObj × PyObj) → PyObj → PyObj → List (PyObj × PyObj)
  | [], k, v => [(k, v)]
  | (k0, v0) :: rest, k, v =>
      if PyObj.beq k0 k then (k0, v) :: rest else (k0, v0) :: entriesSet rest k v

/-- `Mapping.set_item(key, value)`: fails (a foreign-runtime error the
bridge propagates) when the key is unhashable, otherwise performs a
last-write-wins update. -/
def mapSetItem (entries : List (PyObj × PyObj)) (k v : PyObj) :
    Outcome (List (PyObj × PyObj)) :=
  if k.hashable then .ok (entriesSet entries k v)
  else .err (.adapterFailure "unhashable type")

/-- The `PythonizeTypes` container adapter: a binding of concrete Mapping
and List classes, identified by their tags.  Construction is
`P::Map::new` / `P::List::new`; mutation goes through the generic mapping
protocol (`mapSetItem`). -/
structure Adapter where
  mapTag : String
  listTag : String
deriving DecidableEq, Repr

/-- `PythonizeDefault`: `Map = PyDict`, `List = PyList`. -/
def defaultAdapter : Adapter := ⟨"dict", "list"⟩

/-- `PythonCollectionSerializer`: the ordered buffer of already-converted
elements for Seq / Tuple / TupleStruct (and the inner state of
TupleVariant). -/
structure PythonCollectionSerializer where
  items : List PyObj
deriving Repr

/-- `PythonMapSerializer`: the target mapping (entries of a `P::Map` built
once at `serialize_map`) plus the pending-key slot. -/
structure PythonMapSerializer where
  map : List (PyObj × PyObj)
  key : Option PyObj
deriving Repr

/-- `PythonDictSerializer`: the target mapping (entries of a `P::Map` built
once at `serialize_struct`). -/
structure PythonDictSerializer where
  dict : List (PyObj × PyObj)
deriving Repr

/-- `Pythonizer::serialize_seq`: buffer pre-sized by the length hint
(`Vec::with_capacity(len)` vs `Vec::new()`); capacity is not part of a
vector's value, so both arms denote the empty buffer. -/
def serializeSeq (len : Option Nat) : PythonCollectionSerializer :=
  match len with
  | Option.some _ => ⟨[]⟩
  | Option.none => ⟨[]⟩

/-- `Pythonizer::serialize_tuple` / `serialize_tuple_struct`:
`Vec::with_capacity(len)`. -/
def serializeTuple (_len : Nat) : PythonCollectionSerializer := ⟨[]⟩

mutual
/-- `pythonize_custom::<P, _>(py, value)`: run the value's structured-value
protocol against `Pythonizer`'s `Serializer` impl, with container adapter
`A`.  Each arm mirrors the corresponding `serialize_*` method of
`src/ser.rs`, and the aggregate arms mirror how serde's `Serialize` impls
drive the returned compound serializer (`begin → element/field calls →
end`). -/
def pythonizeCustom (A : Adapter) : Value → Outcome PyObj
  | .bool b => .ok (.bool b)
  | .int n => .ok (.int n)
  | .char c => .ok (.str (String.singleton c))
  | .str s => .ok (.str s)
  | .bytes bs => .ok (.bytes bs)
  | .none => .ok .none
  | .some v => pythonizeCustom A v
  | .unit => .ok .none
  | .unitStruct _ => .ok .none
  | .unitVariant _ variant => .ok (.str variant)
  | .newtypeStruct _ v => pythonizeCustom A v
  | .newtypeVariant _ variant v => do
      let o ← pythonizeCustom A v
      let d ← mapSetItem [] (.str variant) o
      .ok (.mapObj "dict" d)
  | .seq len elems => do
      let s ← runElements A (serializeSeq len) elems
      .ok (.seqObj A.listTag s.items)
  | .tuple elems => do
      let s ← runElements A (serializeTuple elems.length) elems
      .ok (.tuple s.items)
  | .tupleStruct _ elems => do
      let s ← runElements A (serializeTuple elems.length) elems
      .ok (.tuple s.items)
  | .tupleVariant _ variant elems => do
      let s ← runElements A (serializeTuple elems.length) elems
      let d ← mapSetItem [] (.str variant) (.tuple s.items)
      .ok (.mapObj "dict" d)
  | .map entries => do
      let s ← runEntries A ⟨[], Option.none⟩ entries
      .ok (.mapObj A.mapTag s.map)
  | .struct _ fields => do
      let d ← runFields A ⟨[]⟩ fields
      .ok (.mapObj A.mapTag d.dict)
  | .structVariant _ variant fields => do
      let d ← runFields A ⟨[]⟩ fields
      let outer ← mapSetItem [] (.str variant) (.mapObj A.mapTag d.dict)
      .ok (.mapObj "dict" outer)

/-- The protocol's element loop for an aggregate with elements `vs`: one
`SerializeSeq::serialize_element` call per element, in order, each pushing
the recursive conversion of its element onto the buffer
(`self.items.push(pythonize_custom::<P, _>(self.py, value)?)`). -/
def runElements (A : Adapter) (s : PythonCollectionSerializer) :
    List Value → Outcome PythonCollectionSerializer
  | [] => .ok s
  | v :: vs => do
      let o ← pythonizeCustom A v
      runElements A ⟨s.items ++ [o]⟩ vs

/-- The protocol's entry loop for a Map with entries `kvs`: for each entry,
one `serialize_key` call (convert the key into the pending slot) then one
`serialize_value` call (take the pending key, convert the value, write the
pair with `set_item`), inlined. -/
def runEntries (A : Adapter) (s : PythonMapSerializer) :
    List (Value × Value) → Outcome PythonMapSerializer
  | [] => .ok s
  | (k, v) :: kvs => do
      let ko ← pythonizeCustom A k
      let vo ← pythonizeCustom A v
      let m ← mapSetItem s.map ko vo
      runEntries A ⟨m, Option.none⟩ kvs

/-- The protocol's field loop for a Struct / StructVariant with fields
`fs`: one `serialize_field` call per field in declaration order, each
doing `set_item(key, pythonize_custom(value)?)` with the literal field
name as key. -/
def runFields (A : Adapter) (d : PythonDictSerializer) :
    List (String × Value) → Outcome PythonDictSerializer
  | [] => .ok d
  | (name, v) :: fs => do
      let o ← pythonizeCustom A v
      let m ← mapSetItem d.dict (.str name) o
      runFields A ⟨m⟩ fs
end

/-- `pythonize(py, value)`: the default-adapter entry point
(`PythonizeDefault`: `PyDict` / `PyList`). -/
def pythonize (v : Value) : Outcome PyObj := pythonizeCustom defaultAdapter v

/-- `SerializeSeq::serialize_element` (also forwarded to by
`SerializeTuple`, `SerializeTupleStruct` and `SerializeTupleVariant`):
push the recursive conversion of the element onto the buffer. -/
def serializeElement (A : Adapter) (s : PythonCollectionSerializer) (v : Value) :
    Outcome PythonCollectionSerializer := do
  let o ← pythonizeCustom A v
  .ok ⟨s.items ++ [o]⟩

/-- `PythonMapSerializer::serialize_key`: convert the key and store it in
the pending-key slot, unconditionally overwriting whatever the slot held. -/
def serializeKey (A : Adapter) (s : PythonMapSerializer) (k : Value) :
    Outcome PythonMapSerializer := do
  let o ← pythonizeCustom A k
  .ok ⟨s.map, Option.some o⟩

/-- `PythonMapSerializer::serialize_value`:
`self.map.as_mapping().set_item(self.key.take().expect(..), pythonize_custom(..)?)`.
Rust evaluates arguments left to right, so with an empty pending-key slot
the `expect` panics before the value is even converted; with a pending
key, the key is taken, the value converted, and the pair written through
the mapping protocol. -/
def serializeValue (A : Adapter) (s : PythonMapSerializer) (v : Value) :
    Outcome PythonMapSerializer :=
  match s.key with
  | Option.some k => do
      let o ← pythonizeCustom A v
      let m ← mapSetItem s.map k o
      .ok ⟨m, Option.none⟩
  | Option.none => .panic "serialize_value should always be called after serialize_key"

/-- `PythonDictSerializer::serialize_field` (and
`PythonStructVariantSerializer::serialize_field`, same body on the inner
dict). -/
def serializeField (A : Adapter) (d : PythonDictSerializer) (name : String) (v : Value) :
    Outcome PythonDictSerializer := do
  let o ← pythonizeCustom A v
  let m ← mapSetItem d.dict (.str name) o
  .ok ⟨m⟩

/-- The sequence of recursive child conversions of a list of elements: the
elements of the buffer that the element loop accumulates. -/
def elemsOut (A : Adapter) : List Value → Outcome (List PyObj)
  | [] => .ok []
  | v :: vs => do
      let o ← pythonizeCustom A v
      let os ← elemsOut A vs
      .ok (o :: os)

/-- Strip the pure pass-through layers (`Option::Some`, newtype structs)
from a value. -/
def Value.strip : Value → Value
  | .some v => Value.strip v
  | .newtypeStruct _ v => Value.strip v
  | v => v

/-- Whether a value is of one of the three kinds the dispatcher sends to
`serialize_none`: `Unit`, a `UnitStruct`, or `Option::None`. -/
def Value.isUnitKind : Value → Bool
  | .unit => true
  | .unitStruct _ => true
  | .none => true
  | _ => false

/-- Whether an outcome is a returned `Err`. -/
def Outcome.isErr {α : Type} : Outcome α → Bool
  | .err _ => true
  | _ => false

/-- Whether an outcome is a returned `Ok`. -/
def Outcome.isOk {α : Type} : Outcome α → Bool
  | .ok _ => true
  | _ => false

mutual
/-- The shape of a Python object: the same tree with the concrete
container classes (the adapter tags) erased.  Two conversions agree up to
the concrete Mapping/List representations exactly when their shapes are
equal. -/
def PyObj.shape : PyObj → PyObj
  | .none => .none
  | .bool b => .bool b
  | .int n => .int n
  | .str s => .str s
  | .bytes bs => .bytes bs
  | .tuple items => .tuple (PyObj.shapeList items)
  | .seqObj _ items => .seqObj "" (PyObj.shapeList items)
  | .mapObj _ es => .mapObj "" (PyObj.shapeEntries es)

def PyObj.shapeList : List PyObj → List PyObj
  | [] => []
  | x :: xs => x.shape :: PyObj.shapeList xs

def PyObj.shapeEntries : List (PyObj × PyObj) → List (PyObj × PyObj)
  | [] => []
  | (k, v) :: es => (k.shape, v.shape) :: PyObj.shapeEntries es
end

/-- Shape of an outcome: erase the container tags of a successful result,
keep failures as they are. -/
def Outcome.shapeO : Outcome PyObj → Outcome PyObj
  | .ok o => .ok o.shape
  | .err e => .err e
  | .panic m => .panic m

mutual
theorem PyObj.beq_refl : ∀ a : PyObj, PyObj.beq a a = true
  | .none => rfl
  | .bool a => by simp [PyObj.beq]
  | .int a => by simp [PyObj.beq]
  | .str a => by simp [PyObj.beq]
  | .bytes a => by simp [PyObj.beq]
  | .tuple a => by simp [PyObj.beq]; exact PyObj.beqList_refl a
  | .seqObj t a => by simp [PyObj.beq]; exact PyObj.beqList_refl a
  | .mapObj t a => by simp [PyObj.beq]; exact PyObj.beqEntries_refl a

theorem PyObj.beqList_refl : ∀ a : List PyObj, PyObj.beqList a a = true
  | [] => rfl
  | a :: as => by
      simp [PyObj.beqList]
      exact ⟨PyObj.beq_refl a, PyObj.beqList_refl as⟩

theorem PyObj.beqEntries_refl : ∀ a : List (PyObj × PyObj), PyObj.beqEntries a a = true
  | [] => rfl
  | (k, v) :: as => by
      simp [PyObj.beqEntries]
      exact ⟨⟨PyObj.beq_refl k, PyObj.beq_refl v⟩, PyObj.beqEntries_refl as⟩
end


/-- One step of the Map entry loop is exactly `serialize_key` followed by
`serialize_value`. -/
theorem runEntries_cons_eq (A : Adapter) (s : PythonMapSerializer) (k v : Value)
    (kvs : List (Value × Value)) :
    runEntries A s ((k, v) :: kvs) =
      (serializeKey A s k).bind fun s1 =>
        (serializeValue A s1 v).bind fun s2 => runEntries A s2 kvs := by
  simp only [runEntries, serializeKey, serializeValue, Bind.bind, Outcome.bind]
  cases pythonizeCustom A k <;> try rfl
  rename_i ko
  simp only [Outcome.bind]
  cases pythonizeCustom A v <;> try rfl
  rename_i vo
  simp only [Outcome.bind]
  cases mapSetItem s.map ko vo <;> rfl

/-- One step of the element loop is exactly `serialize_element`. -/
theorem runElements_cons_eq (A : Adapter) (s : PythonCollectionSerializer) (v : Value)
    (vs : List Value) :
    runElements A s (v :: vs) =
      (serializeElement A s v).bind fun s1 => runElements A s1 vs := by
  simp only [runElements, serializeElement, Bind.bind, Outcome.bind]
  cases pythonizeCustom A v <;> simp [Outcome.bind]

/-- One step of the field loop is exactly `serialize_field`. -/
theorem runFields_cons_eq (A : Adapter) (d : PythonDictSerializer) (name : String)
    (v : Value) (fs : List (String × Value)) :
    runFields A d ((name, v) :: fs) =
      (serializeField A d name v).bind fun d1 => runFields A d1 fs := by
  simp only [runFields, serializeField, Bind.bind, Outcome.bind]
  cases pythonizeCustom A v <;> rfl

/-- Pointwise relation between two mapping-entry lists built under two
different adapters: same keys (written keys are hashable, hence
tag-free and literally equal) and shape-equal values. -/
def entriesRel (m1 m2 : List (PyObj × PyObj)) : Prop :=
  List.Forall₂ (fun p q => p.1 = q.1 ∧ p.2.shape = q.2.shape) m1 m2

/-- Shape of an element-list outcome. -/
def Outcome.shapeL : Outcome (List PyObj) → Outcome (List PyObj)
  | .ok os => .ok (PyObj.shapeList os)
  | .err e => .err e
  | .panic m => .panic m

/-- Lift a relation on results to outcomes: successes must be related,
failures must be identical. -/
def outRel {α : Type} (R : α → α → Prop) : Outcome α → Outcome α → Prop
  | .ok a, .ok b => R a b
  | .err e1, .err e2 => e1 = e2
  | .panic m1, .panic m2 => m1 = m2
  | _, _ => False

/-- Relation between `set_item` outcomes under two adapters. -/
def entriesOutRel : Outcome (List (PyObj × PyObj)) → Outcome (List (PyObj × PyObj)) → Prop :=
  outRel entriesRel

/-- The length hint of `serialize_seq` only pre-sizes the buffer; the
buffer's value is empty either way. -/
theorem serializeSeq_eq (len : Option Nat) : serializeSeq len = ⟨[]⟩ := by
  cases len <;> rfl

/-- The element loop appends the recursively converted elements, in order,
to the buffer it starts from. -/
theorem runElements_eq_elemsOut (A : Adapter) :
    ∀ (vs : List Value) (acc : List PyObj),
      runElements A ⟨acc⟩ vs = (elemsOut A vs).bind fun os => .ok ⟨acc ++ os⟩
  | [], acc => by simp [runElements, elemsOut, Outcome.bind]
  | v :: vs, acc => by
      simp only [runElements, elemsOut, Bind.bind, Outcome.bind]
      cases pythonizeCustom A v <;> try rfl
      rename_i o
      simp only [runElements_eq_elemsOut A vs (acc ++ [o]), Outcome.bind]
      cases elemsOut A vs <;> simp [Outcome.bind]

/-- A successful element-loop run pairs the input elements with their
conversions one to one, in order. -/
theorem elemsOut_forall2 (A : Adapter) :
    ∀ {vs : List Value} {os : List PyObj}, elemsOut A vs = .ok os →
      List.Forall₂ (fun v o => pythonizeCustom A v = .ok o) vs os := by
  intro vs
  induction vs with
  | nil => intro os h; simp only [elemsOut] at h; cases h; exact List.Forall₂.nil
  | cons v vs ih =>
      intro os h
      simp only [elemsOut, Bind.bind] at h
      cases hv : pythonizeCustom A v <;> rw [hv] at h <;> simp only [Outcome.bind] at h <;>
        try cases h
      cases hos : elemsOut A vs <;> rw [hos] at h <;> simp only [Outcome.bind] at h <;>
        try cases h
      exact List.Forall₂.cons hv (ih hos)

/-- `elemsOut` over an appended list runs the two halves in sequence. -/
theorem elemsOut_append (A : Adapter) :
    ∀ (xs ys : List Value),
      elemsOut A (xs ++ ys) =
        (elemsOut A xs).bind fun os1 => (elemsOut A ys).bind fun os2 => .ok (os1 ++ os2)
  | [], ys => by
      rw [List.nil_append]
      simp only [elemsOut, Bind.bind, Outcome.bind]
      cases elemsOut A ys <;> rfl
  | x :: xs, ys => by
      rw [List.cons_append]
      simp only [elemsOut, Bind.bind, Outcome.bind]
      cases pythonizeCustom A x <;> try rfl
      rename_i o
      rw [elemsOut_append A xs ys]
      simp only [Outcome.bind]
      cases elemsOut A xs <;> try rfl
      rename_i os1
      simp only [Outcome.bind]
      cases elemsOut A ys <;> simp [Outcome.bind]

/-- The field loop over an appended field list runs the two halves in
sequence. -/
theorem runFields_append (A : Adapter) :
    ∀ (fs1 fs2 : List (String × Value)) (d : PythonDictSerializer),
      runFields A d (fs1 ++ fs2) =
        (runFields A d fs1).bind fun d1 => runFields A d1 fs2
  | [], fs2, d => by
      rw [List.nil_append]
      simp only [runFields, Bind.bind, Outcome.bind]
  | (name, v) :: fs1, fs2, d => by
      rw [List.cons_append]
      simp only [runFields]
      cases pythonizeCustom A v <;> simp only [Bind.bind, Outcome.bind] <;> try rfl
      rename_i o
      cases mapSetItem d.dict (.str name) o <;> simp only [Outcome.bind] <;> try rfl
      rename_i m
      exact runFields_append A fs1 fs2 ⟨m⟩

/-- The entry loop over an appended entry list runs the two halves in
sequence. -/
theorem runEntries_append (A : Adapter) :
    ∀ (kvs1 kvs2 : List (Value × Value)) (s : PythonMapSerializer),
      runEntries A s (kvs1 ++ kvs2) =
        (runEntries A s kvs1).bind fun s1 => runEntries A s1 kvs2
  | [], kvs2, s => by
      rw [List.nil_append]
      simp only [runEntries, Bind.bind, Outcome.bind]
  | (k, v) :: kvs1, kvs2, s => by
      rw [List.cons_append]
      simp only [runEntries]
      cases pythonizeCustom A k <;> simp only [Bind.bind, Outcome.bind] <;> try rfl
      rename_i ko
      cases pythonizeCustom A v <;> simp only [Outcome.bind] <;> try rfl
      rename_i vo
      cases mapSetItem s.map ko vo <;> simp only [Outcome.bind] <;> try rfl
      rename_i m
      exact runEntries_append A kvs1 kvs2 ⟨m, Option.none⟩

/-- C7: for every inner value `v`, `convert(Option::Some(v))` and
`convert(NewtypeStruct(v))` each equal `convert(v)` exactly:
`serialize_some` and `serialize_newtype_struct` are pure pass-throughs
(`value.serialize(self)`) that add no wrapping object. -/
theorem passthrough_some_newtype_struct (A : Adapter) (name : String) (v : Value) :
    pythonizeCustom A (.some v) = pythonizeCustom A v ∧
    pythonizeCustom A (.newtypeStruct name v) = pythonizeCustom A v :=
  ⟨rfl, rfl⟩

/-- C10: the sequence length hint only pre-sizes the internal buffer
(`Vec::with_capacity` vs `Vec::new`), never the result: converting a Seq
whose begin call states length `Some n` equals converting the same
elements with length `None`, for every `n`. -/
theorem seq_len_hint_irrelevant (A : Adapter) (n : Nat) (elems : List Value) :
    pythonizeCustom A (.seq (Option.some n) elems) =
      pythonizeCustom A (.seq Option.none elems) := rfl

/-- C4 (counterexample): calling `serialize_value` on a Map Serializer
state with no pending key does not report a `ProtocolViolation` (or any)
error: the `expect` on the empty key slot panics instead, aborting the
process rather than returning `Err`. -/
theorem serialize_value_no_key_not_an_error :
    (serializeValue defaultAdapter ⟨[], Option.none⟩ (.int 1)).isErr = false ∧
    serializeValue defaultAdapter ⟨[], Option.none⟩ (.int 1) =
      .panic "serialize_value should always be called after serialize_key" :=
  ⟨rfl, rfl⟩

/-- C4 (amended): for every Map Serializer state with no pending key,
`serialize_value` never succeeds silently: it unconditionally panics (with
the `expect` message), before even converting the value — but it panics
rather than reporting a `ProtocolViolation` error. -/
theorem serialize_value_no_key_panics (A : Adapter) (m : List (PyObj × PyObj)) (v : Value) :
    serializeValue A ⟨m, Option.none⟩ v =
      .panic "serialize_value should always be called after serialize_key" := rfl

/-- C9: a second consecutive `serialize_key` call on a state that already
holds a pending key raises no error: it silently replaces the pending key
with the new key's conversion, leaving the target mapping unchanged (the
first key is never inserted). -/
theorem serialize_key_overwrites_pending (A : Adapter) (m : List (PyObj × PyObj))
    (k0 ko : PyObj) (k : Value) (hk : pythonizeCustom A k = .ok ko) :
    serializeKey A ⟨m, Option.some k0⟩ k = .ok ⟨m, Option.some ko⟩ := by
  simp [serializeKey, hk, Bind.bind, Outcome.bind]

/-- Witness for C9 at a concrete state and key. -/
theorem serialize_key_overwrites_pending_witness :
    serializeKey defaultAdapter ⟨[], Option.some (.int 7)⟩ (.str "k") =
      .ok ⟨[], Option.some (.str "k")⟩ :=
  serialize_key_overwrites_pending defaultAdapter [] (.int 7) (.str "k") (.str "k") rfl

mutual
/-- Erasing container tags never changes hashability. -/
theorem PyObj.hashable_shape : ∀ o : PyObj, o.shape.hashable = o.hashable
  | .none => rfl
  | .bool _ => rfl
  | .int _ => rfl
  | .str _ => rfl
  | .bytes _ => rfl
  | .tuple items => by
      simp only [PyObj.shape, PyObj.hashable]
      exact PyObj.hashableList_shape items
  | .seqObj _ _ => rfl
  | .mapObj _ _ => rfl

theorem PyObj.hashableList_shape :
    ∀ os : List PyObj, PyObj.hashableList (PyObj.shapeList os) = PyObj.hashableList os
  | [] => rfl
  | x :: xs => by
      simp only [PyObj.shapeList, PyObj.hashableList]
      rw [PyObj.hashable_shape x, PyObj.hashableList_shape xs]
end

mutual
/-- A hashable object contains no container tags, so tag erasure is the
identity on it. -/
theorem PyObj.shape_of_hashable : ∀ o : PyObj, o.hashable = true → o.shape = o
  | .none, _ => rfl
  | .bool _, _ => rfl
  | .int _, _ => rfl
  | .str _, _ => rfl
  | .bytes _, _ => rfl
  | .tuple items, h => by
      simp only [PyObj.hashable] at h
      simp only [PyObj.shape]
      rw [PyObj.shapeList_of_hashable items h]
  | .seqObj _ _, h => by simp [PyObj.hashable] at h
  | .mapObj _ _, h => by simp [PyObj.hashable] at h

theorem PyObj.shapeList_of_hashable :
    ∀ os : List PyObj, PyObj.hashableList os = true → PyObj.shapeList os = os
  | [], _ => rfl
  | x :: xs, h => by
      simp only [PyObj.hashableList, Bool.and_eq_true] at h
      simp only [PyObj.shapeList]
      rw [PyObj.shape_of_hashable x h.1, PyObj.shapeList_of_hashable xs h.2]
end

/-- Related entry lists have equal shapes. -/
theorem entriesRel_shapeEntries :
    ∀ (m1 m2 : List (PyObj × PyObj)), entriesRel m1 m2 →
      PyObj.shapeEntries m1 = PyObj.shapeEntries m2
  | [], [], _ => rfl
  | (k1, v1) :: m1, (k2, v2) :: m2, List.Forall₂.cons hpq htail => by
      obtain ⟨hk, hv⟩ := hpq
      simp only at hk hv
      simp only [PyObj.shapeEntries]
      rw [hk, hv, entriesRel_shapeEntries m1 m2 htail]

/-- `entriesSet` with the same key and shape-equal values preserves the
entry relation. -/
theorem entriesSet_rel :
    ∀ (m1 m2 : List (PyObj × PyObj)) (k o1 o2 : PyObj), entriesRel m1 m2 →
      o1.shape = o2.shape →
      entriesRel (entriesSet m1 k o1) (entriesSet m2 k o2)
  | [], [], k, o1, o2, _, ho => List.Forall₂.cons ⟨rfl, ho⟩ List.Forall₂.nil
  | (k1, v1) :: m1, (k2, v2) :: m2, k, o1, o2, List.Forall₂.cons hpq htail, ho => by
      obtain ⟨hk, hv⟩ := hpq
      simp only at hk hv
      simp only [entriesSet, hk]
      cases hbeq : PyObj.beq k2 k
      · simp only [hbeq, Bool.false_eq_true, if_false]
        exact List.Forall₂.cons ⟨rfl, hv⟩ (entriesSet_rel m1 m2 k o1 o2 htail ho)
      · simp only [hbeq, if_true]
        exact List.Forall₂.cons ⟨rfl, ho⟩ htail

/-- `set_item` under two adapters, on related mappings with shape-equal
keys and shape-equal values, yields related outcomes (both the same
error, or both updated mappings that stay related). -/
theorem mapSetItem_rel {m1 m2 : List (PyObj × PyObj)} (h : entriesRel m1 m2)
    (k1 k2 o1 o2 : PyObj) (hk : k1.shape = k2.shape) (ho : o1.shape = o2.shape) :
    entriesOutRel (mapSetItem m1 k1 o1) (mapSetItem m2 k2 o2) := by
  have hh : k1.hashable = k2.hashable := by
    rw [← PyObj.hashable_shape k1, hk, PyObj.hashable_shape]
  cases hhk : k1.hashable
  · have hk2 : k2.hashable = false := by rw [← hh, hhk]
    simp [mapSetItem, hhk, hk2, entriesOutRel, outRel]
  · have hk2 : k2.hashable = true := by rw [← hh, hhk]
    have hkk : k1 = k2 := by
      rw [← PyObj.shape_of_hashable k1 hhk, hk, PyObj.shape_of_hashable k2 hk2]
    rw [hkk]
    simp only [mapSetItem, hk2, if_true]
    exact entriesSet_rel m1 m2 k2 o1 o2 h ho

/-- `bind` respects outcome relations. -/
theorem outRel_bind {α β : Type} {R : α → α → Prop} {S : β → β → Prop}
    {x y : Outcome α} {f g : α → Outcome β}
    (h : outRel R x y)
    (hfg : ∀ a b, R a b → outRel S (f a) (g b)) :
    outRel S (x.bind f) (y.bind g) := by
  cases x <;> cases y <;> simp only [outRel, Outcome.bind] at h ⊢ <;>
    first
      | exact h.elim
      | exact hfg _ _ h
      | exact h

/-- Shape-related outcomes have equal tag-erased images. -/
theorem outRel_shapeO {x y : Outcome PyObj}
    (h : outRel (fun o1 o2 => o1.shape = o2.shape) x y) : x.shapeO = y.shapeO := by
  cases x <;> cases y <;> simp only [outRel] at h <;>
    first
      | exact h.elim
      | simp [Outcome.shapeO, h]

/-- The Seq arm of the dispatcher in bind normal form. -/
theorem pythonizeCustom_seq (A : Adapter) (len : Option Nat) (elems : List Value) :
    pythonizeCustom A (.seq len elems) =
      (elemsOut A elems).bind fun os => .ok (.seqObj A.listTag os) := by
  simp only [pythonizeCustom]
  rw [serializeSeq_eq, runElements_eq_elemsOut A elems []]
  cases elemsOut A elems <;> rfl

/-- The Tuple arm of the dispatcher in bind normal form. -/
theorem pythonizeCustom_tuple (A : Adapter) (elems : List Value) :
    pythonizeCustom A (.tuple elems) =
      (elemsOut A elems).bind fun os => .ok (.tuple os) := by
  simp only [pythonizeCustom]
  rw [show serializeTuple elems.length = (⟨[]⟩ : PythonCollectionSerializer) from rfl,
    runElements_eq_elemsOut A elems []]
  cases elemsOut A elems <;> rfl

/-- The TupleStruct arm delegates to the Tuple arm. -/
theorem pythonizeCustom_tupleStruct (A : Adapter) (name : String) (elems : List Value) :
    pythonizeCustom A (.tupleStruct name elems) = pythonizeCustom A (.tuple elems) := rfl

/-- The TupleVariant arm of the dispatcher in bind normal form. -/
theorem pythonizeCustom_tupleVariant (A : Adapter) (name variant : String)
    (elems : List Value) :
    pythonizeCustom A (.tupleVariant name variant elems) =
      (elemsOut A elems).bind fun os =>
        .ok (.mapObj "dict" [(.str variant, .tuple os)]) := by
  simp only [pythonizeCustom]
  rw [show serializeTuple elems.length = (⟨[]⟩ : PythonCollectionSerializer) from rfl,
    runElements_eq_elemsOut A elems []]
  cases elemsOut A elems <;> rfl

/-- The NewtypeVariant arm of the dispatcher in bind normal form. -/
theorem pythonizeCustom_newtypeVariant (A : Adapter) (name variant : String) (v : Value) :
    pythonizeCustom A (.newtypeVariant name variant v) =
      (pythonizeCustom A v).bind fun o =>
        .ok (.mapObj "dict" [(.str variant, o)]) := by
  conv =>
    lhs
    rw [pythonizeCustom]
  cases pythonizeCustom A v <;> rfl

/-- The StructVariant arm of the dispatcher in bind normal form. -/
theorem pythonizeCustom_structVariant (A : Adapter) (name variant : String)
    (fields : List (String × Value)) :
    pythonizeCustom A (.structVariant name variant fields) =
      (runFields A ⟨[]⟩ fields).bind fun d =>
        .ok (.mapObj "dict" [(.str variant, .mapObj A.mapTag d.dict)]) := by
  conv =>
    lhs
    rw [pythonizeCustom]
  cases runFields A ⟨[]⟩ fields <;> rfl

/-- The monadic bind on outcomes is `Outcome.bind`. -/
theorem Outcome.bind_eq {α β : Type} (x : Outcome α) (f : α → Outcome β) :
    Bind.bind x f = Outcome.bind x f := rfl

/-- The Map arm of the dispatcher in bind normal form. -/
theorem pythonizeCustom_map (A : Adapter) (entries : List (Value × Value)) :
    pythonizeCustom A (.map entries) =
      (runEntries A ⟨[], Option.none⟩ entries).bind fun s =>
        .ok (.mapObj A.mapTag s.map) := by
  conv =>
    lhs
    rw [pythonizeCustom]
  cases runEntries A ⟨[], Option.none⟩ entries <;> rfl

/-- The Struct arm of the dispatcher in bind normal form. -/
theorem pythonizeCustom_struct (A : Adapter) (name : String)
    (fields : List (String × Value)) :
    pythonizeCustom A (.struct name fields) =
      (runFields A ⟨[]⟩ fields).bind fun d => .ok (.mapObj A.mapTag d.dict) := by
  conv =>
    lhs
    rw [pythonizeCustom]
  cases runFields A ⟨[]⟩ fields <;> rfl

mutual
/-- Conversion of the same value under any two adapters yields
shape-related outcomes: equal results up to container tags, or the very
same failure. -/
theorem pythonizeCustom_shape_rel (A B : Adapter) : ∀ v : Value,
    outRel (fun o1 o2 => o1.shape = o2.shape)
      (pythonizeCustom A v) (pythonizeCustom B v)
  | .bool b => rfl
  | .int n => rfl
  | .char c => rfl
  | .str s => rfl
  | .bytes bs => rfl
  | .none => rfl
  | .some v => pythonizeCustom_shape_rel A B v
  | .unit => rfl
  | .unitStruct _ => rfl
  | .unitVariant _ _ => rfl
  | .newtypeStruct _ v => pythonizeCustom_shape_rel A B v
  | .newtypeVariant name variant v => by
      rw [pythonizeCustom_newtypeVariant A name variant v,
        pythonizeCustom_newtypeVariant B name variant v]
      refine outRel_bind (pythonizeCustom_shape_rel A B v) ?_
      intro o1 o2 h
      simp only [outRel, PyObj.shape, PyObj.shapeEntries, h]
  | .seq len elems => by
      rw [pythonizeCustom_seq A len elems, pythonizeCustom_seq B len elems]
      refine outRel_bind (elemsOut_shape_rel A B elems) ?_
      intro os1 os2 h
      simp only [outRel, PyObj.shape, h]
  | .tuple elems => by
      rw [pythonizeCustom_tuple A elems, pythonizeCustom_tuple B elems]
      refine outRel_bind (elemsOut_shape_rel A B elems) ?_
      intro os1 os2 h
      simp only [outRel, PyObj.shape, h]
  | .tupleStruct name elems => by
      rw [pythonizeCustom_tupleStruct A name elems, pythonizeCustom_tupleStruct B name elems,
        pythonizeCustom_tuple A elems, pythonizeCustom_tuple B elems]
      refine outRel_bind (elemsOut_shape_rel A B elems) ?_
      intro os1 os2 h
      simp only [outRel, PyObj.shape, h]
  | .tupleVariant name variant elems => by
      rw [pythonizeCustom_tupleVariant A name variant elems,
        pythonizeCustom_tupleVariant B name variant elems]
      refine outRel_bind (elemsOut_shape_rel A B elems) ?_
      intro os1 os2 h
      simp only [outRel, PyObj.shape, PyObj.shapeEntries, PyObj.shapeList, h]
  | .map entries => by
      rw [pythonizeCustom_map A entries, pythonizeCustom_map B entries]
      refine outRel_bind (runEntries_shape_rel A B entries ⟨[], Option.none⟩
        ⟨[], Option.none⟩ List.Forall₂.nil) ?_
      intro s1 s2 h
      simp only [outRel, PyObj.shape]
      rw [entriesRel_shapeEntries s1.map s2.map h]
  | .struct name fields => by
      rw [pythonizeCustom_struct A name fields, pythonizeCustom_struct B name fields]
      refine outRel_bind (runFields_shape_rel A B fields ⟨[]⟩ ⟨[]⟩ List.Forall₂.nil) ?_
      intro d1 d2 h
      simp only [outRel, PyObj.shape]
      rw [entriesRel_shapeEntries d1.dict d2.dict h]
  | .structVariant name variant fields => by
      rw [pythonizeCustom_structVariant A name variant fields,
        pythonizeCustom_structVariant B name variant fields]
      refine outRel_bind (runFields_shape_rel A B fields ⟨[]⟩ ⟨[]⟩ List.Forall₂.nil) ?_
      intro d1 d2 h
      simp only [outRel, PyObj.shape, PyObj.shapeEntries]
      rw [entriesRel_shapeEntries d1.dict d2.dict h]

/-- Element loops under any two adapters yield shape-related buffers. -/
theorem elemsOut_shape_rel (A B : Adapter) : ∀ vs : List Value,
    outRel (fun os1 os2 => PyObj.shapeList os1 = PyObj.shapeList os2)
      (elemsOut A vs) (elemsOut B vs)
  | [] => rfl
  | v :: vs => by
      simp only [elemsOut, Outcome.bind_eq]
      refine outRel_bind (pythonizeCustom_shape_rel A B v) ?_
      intro o1 o2 h1
      refine outRel_bind (elemsOut_shape_rel A B vs) ?_
      intro os1 os2 h2
      simp only [outRel, PyObj.shapeList, h1, h2]

/-- Entry loops under any two adapters, started from related mappings,
yield related map-serializer outcomes. -/
theorem runEntries_shape_rel (A B : Adapter) : ∀ (kvs : List (Value × Value))
    (s1 s2 : PythonMapSerializer), entriesRel s1.map s2.map →
    outRel (fun t1 t2 => entriesRel t1.map t2.map)
      (runEntries A s1 kvs) (runEntries B s2 kvs)
  | [], s1, s2, h => h
  | (k, v) :: kvs, s1, s2, h => by
      simp only [runEntries, Outcome.bind_eq]
      refine outRel_bind (pythonizeCustom_shape_rel A B k) ?_
      intro ko1 ko2 hk
      refine outRel_bind (pythonizeCustom_shape_rel A B v) ?_
      intro vo1 vo2 hv
      refine outRel_bind (mapSetItem_rel h ko1 ko2 vo1 vo2 hk hv) ?_
      intro m1 m2 hm
      exact runEntries_shape_rel A B kvs ⟨m1, Option.none⟩ ⟨m2, Option.none⟩ hm

/-- Field loops under any two adapters, started from related mappings,
yield related dict-serializer outcomes. -/
theorem runFields_shape_rel (A B : Adapter) : ∀ (fs : List (String × Value))
    (d1 d2 : PythonDictSerializer), entriesRel d1.dict d2.dict →
    outRel (fun t1 t2 => entriesRel t1.dict t2.dict)
      (runFields A d1 fs) (runFields B d2 fs)
  | [], d1, d2, h => h
  | (name, v) :: fs, d1, d2, h => by
      simp only [runFields, Outcome.bind_eq]
      refine outRel_bind (pythonizeCustom_shape_rel A B v) ?_
      intro o1 o2 ho
      refine outRel_bind (mapSetItem_rel h (.str name) (.str name) o1 o2 rfl ho) ?_
      intro m1 m2 hm
      exact runFields_shape_rel A B fs ⟨m1⟩ ⟨m2⟩ hm
end

/-- C1: a newtype, tuple or struct variant named `variant` converts to
exactly one fresh one-entry Mapping `{variant → inner}`, where the inner
value is the conversion of the wrapped value (elements collected into the
ordered-sequence object built by the inner collector's `end` for a tuple
variant, fields into the adapter Mapping for a struct variant); a unit
variant converts to the bare String `variant` with no wrapping mapping. -/
theorem variant_wrapping (A : Adapter) (name nv tv sv uv : String) (v : Value)
    (elems : List Value) (fields : List (String × Value)) (o : PyObj)
    (os : List PyObj) (d : PythonDictSerializer)
    (hv : pythonizeCustom A v = .ok o)
    (hs : elemsOut A elems = .ok os)
    (hd : runFields A ⟨[]⟩ fields = .ok d) :
    pythonizeCustom A (.newtypeVariant name nv v) =
      .ok (.mapObj "dict" [(.str nv, o)]) ∧
    pythonizeCustom A (.tupleVariant name tv elems) =
      .ok (.mapObj "dict" [(.str tv, .tuple os)]) ∧
    pythonizeCustom A (.structVariant name sv fields) =
      .ok (.mapObj "dict" [(.str sv, .mapObj A.mapTag d.dict)]) ∧
    pythonizeCustom A (.unitVariant name uv) = .ok (.str uv) := by
  refine ⟨?_, ?_, ?_, rfl⟩
  · simp [pythonizeCustom, hv, mapSetItem, PyObj.hashable, entriesSet,
      Bind.bind, Outcome.bind]
  · simp [pythonizeCustom, serializeTuple, runElements_eq_elemsOut, hs,
      mapSetItem, PyObj.hashable, entriesSet, Bind.bind, Outcome.bind]
  · simp [pythonizeCustom, hd, mapSetItem, PyObj.hashable, entriesSet,
      Bind.bind, Outcome.bind]

/-- Witness for C1 at concrete variants of each shape. -/
theorem variant_wrapping_witness :
    pythonizeCustom defaultAdapter (.newtypeVariant "E" "NewType" (.str "foo")) =
      .ok (.mapObj "dict" [(.str "NewType", .str "foo")]) ∧
    pythonizeCustom defaultAdapter (.tupleVariant "E" "Tuple" [.int 5, .str "foo"]) =
      .ok (.mapObj "dict" [(.str "Tuple", .tuple [.int 5, .str "foo"])]) ∧
    pythonizeCustom defaultAdapter
        (.structVariant "E" "Struct" [("foo", .str "foo"), ("bar", .int 5)]) =
      .ok (.mapObj "dict"
        [(.str "Struct", .mapObj "dict" [(.str "foo", .str "foo"), (.str "bar", .int 5)])]) ∧
    pythonizeCustom defaultAdapter (.unitVariant "E" "Empty") = .ok (.str "Empty") :=
  variant_wrapping defaultAdapter "E" "NewType" "Tuple" "Struct" "Empty"
    (.str "foo") [.int 5, .str "foo"]
    [("foo", .str "foo"), ("bar", .int 5)] (.str "foo") [.int 5, .str "foo"]
    ⟨[(.str "foo", .str "foo"), (.str "bar", .int 5)]⟩ rfl rfl rfl

/-- C2 (counterexample): with an adapter whose List binding is the class
tagged "customlist", converting the tuple `(1,)` does not yield that
adapter List of the converted elements: `SerializeTuple::end` builds a
concrete `PyTuple` directly (`PyTuple::new`), bypassing the adapter's
List binding. -/
theorem tuple_end_not_adapter_list :
    pythonizeCustom ⟨"custommap", "customlist"⟩ (.tuple [.int 1]) ≠
      .ok (.seqObj "customlist" [.int 1]) := by
  intro h
  rw [show pythonizeCustom ⟨"custommap", "customlist"⟩ (.tuple [.int 1]) =
      .ok (.tuple [.int 1]) from rfl] at h
  simp at h

/-- C2 (amended): a Seq collector's `end` builds the List through the
Container Adapter's List binding from the accumulated buffer, while the
Tuple and TupleStruct collectors' `end` builds a concrete tuple directly
from that buffer (not through the adapter); in all three cases the result
holds exactly the converted elements, index-preserving, for any number of
elements. -/
theorem collector_end_order (A : Adapter) (len : Option Nat) (name : String)
    (elems : List Value) (os : List PyObj)
    (h : elemsOut A elems = .ok os) :
    pythonizeCustom A (.seq len elems) = .ok (.seqObj A.listTag os) ∧
    pythonizeCustom A (.tuple elems) = .ok (.tuple os) ∧
    pythonizeCustom A (.tupleStruct name elems) = .ok (.tuple os) ∧
    os.length = elems.length ∧
    List.Forall₂ (fun v o => pythonizeCustom A v = .ok o) elems os := by
  refine ⟨?_, ?_, ?_, ?_, elemsOut_forall2 A h⟩
  · simp [pythonizeCustom, serializeSeq_eq, runElements_eq_elemsOut, h,
      Bind.bind, Outcome.bind]
  · simp [pythonizeCustom, serializeTuple, runElements_eq_elemsOut, h,
      Bind.bind, Outcome.bind]
  · simp [pythonizeCustom, serializeTuple, runElements_eq_elemsOut, h,
      Bind.bind, Outcome.bind]
  · exact ((elemsOut_forall2 A h).length_eq).symm

/-- Witness for C2 at a concrete two-element input. -/
theorem collector_end_order_witness :
    pythonizeCustom defaultAdapter (.seq (Option.some 2) [.str "foo", .int 5]) =
      .ok (.seqObj "list" [.str "foo", .int 5]) ∧
    pythonizeCustom defaultAdapter (.tuple [.str "foo", .int 5]) =
      .ok (.tuple [.str "foo", .int 5]) ∧
    pythonizeCustom defaultAdapter (.tupleStruct "TS" [.str "foo", .int 5]) =
      .ok (.tuple [.str "foo", .int 5]) ∧
    ([PyObj.str "foo", PyObj.int 5]).length = ([Value.str "foo", Value.int 5]).length ∧
    List.Forall₂ (fun v o => pythonizeCustom defaultAdapter v = .ok o)
      [Value.str "foo", Value.int 5] [PyObj.str "foo", PyObj.int 5] :=
  collector_end_order defaultAdapter (Option.some 2) "TS"
    [.str "foo", .int 5] [.str "foo", .int 5] rfl

/-- C5 (counterexample): `Some(Unit)` — a value of kind `Option::Some`,
which is none of `Unit`, `UnitStruct`, `Option::None` — also converts to
the Null object, refuting "no other input kind converts to Null". -/
theorem some_unit_converts_to_null :
    pythonize (.some .unit) = .ok PyObj.none ∧
    (Value.some Value.unit).isUnitKind = false :=
  ⟨rfl, rfl⟩

/-- C5 (amended): the conversion returns the Null object iff the value,
after stripping the pure pass-through layers (`Option::Some` and newtype
structs), is `Unit`, a `UnitStruct`, or `Option::None`; no other kind
converts to Null. -/
theorem null_iff_unit_kind (A : Adapter) : ∀ v : Value,
    pythonizeCustom A v = .ok PyObj.none ↔ (Value.strip v).isUnitKind = true
  | .bool b => by simp [pythonizeCustom, Value.strip, Value.isUnitKind]
  | .int n => by simp [pythonizeCustom, Value.strip, Value.isUnitKind]
  | .char c => by simp [pythonizeCustom, Value.strip, Value.isUnitKind]
  | .str s => by simp [pythonizeCustom, Value.strip, Value.isUnitKind]
  | .bytes bs => by simp [pythonizeCustom, Value.strip, Value.isUnitKind]
  | .none => by simp [pythonizeCustom, Value.strip, Value.isUnitKind]
  | .some v => by
      rw [show pythonizeCustom A (.some v) = pythonizeCustom A v from rfl,
        show Value.strip (.some v) = Value.strip v from rfl]
      exact null_iff_unit_kind A v
  | .unit => by simp [pythonizeCustom, Value.strip, Value.isUnitKind]
  | .unitStruct name => by simp [pythonizeCustom, Value.strip, Value.isUnitKind]
  | .unitVariant name variant => by simp [pythonizeCustom, Value.strip, Value.isUnitKind]
  | .newtypeStruct name v => by
      rw [show pythonizeCustom A (.newtypeStruct name v) = pythonizeCustom A v from rfl,
        show Value.strip (.newtypeStruct name v) = Value.strip v from rfl]
      exact null_iff_unit_kind A v
  | .newtypeVariant name variant v => by
      simp only [pythonizeCustom, Value.strip, Value.isUnitKind, Bind.bind]
      constructor
      · intro h
        cases hv : pythonizeCustom A v <;> rw [hv] at h <;>
          simp [Outcome.bind, mapSetItem, PyObj.hashable, entriesSet] at h
      · intro h; simp at h
  | .seq len elems => by
      simp only [pythonizeCustom, Value.strip, Value.isUnitKind, Bind.bind]
      constructor
      · intro h
        cases he : runElements A (serializeSeq len) elems <;> rw [he] at h <;>
          simp [Outcome.bind] at h
      · intro h; simp at h
  | .tuple elems => by
      simp only [pythonizeCustom, Value.strip, Value.isUnitKind, Bind.bind]
      constructor
      · intro h
        cases he : runElements A (serializeTuple elems.length) elems <;> rw [he] at h <;>
          simp [Outcome.bind] at h
      · intro h; simp at h
  | .tupleStruct name elems => by
      simp only [pythonizeCustom, Value.strip, Value.isUnitKind, Bind.bind]
      constructor
      · intro h
        cases he : runElements A (serializeTuple elems.length) elems <;> rw [he] at h <;>
          simp [Outcome.bind] at h
      · intro h; simp at h
  | .tupleVariant name variant elems => by
      simp only [pythonizeCustom, Value.strip, Value.isUnitKind, Bind.bind]
      constructor
      · intro h
        cases he : runElements A (serializeTuple elems.length) elems <;> rw [he] at h <;>
          simp [Outcome.bind, mapSetItem, PyObj.hashable, entriesSet] at h
      · intro h; simp at h
  | .map entries => by
      simp only [pythonizeCustom, Value.strip, Value.isUnitKind, Bind.bind]
      constructor
      · intro h
        cases he : runEntries A ⟨[], Option.none⟩ entries <;> rw [he] at h <;>
          simp [Outcome.bind] at h
      · intro h; simp at h
  | .struct name fields => by
      simp only [pythonizeCustom, Value.strip, Value.isUnitKind, Bind.bind]
      constructor
      · intro h
        cases he : runFields A ⟨[]⟩ fields <;> rw [he] at h <;>
          simp [Outcome.bind] at h
      · intro h; simp at h
  | .structVariant name variant fields => by
      simp only [pythonizeCustom, Value.strip, Value.isUnitKind, Bind.bind]
      constructor
      · intro h
        cases he : runFields A ⟨[]⟩ fields <;> rw [he] at h <;>
          simp [Outcome.bind, mapSetItem, PyObj.hashable, entriesSet] at h
      · intro h; simp at h

/-- C6: a Map fed keys `k1, k2, k1'` where `k1` and `k1'` convert to the
same key object and `k2` to a different one ends with exactly one entry
for that key, holding the conversion of the last payload written
(last-write-wins), in first-insertion position. -/
theorem map_last_write_wins (A : Adapter) (k1 k2 k1' v1 v2 v3 : Value)
    (ok1 ok2 ov1 ov2 ov3 : PyObj)
    (hk1 : pythonizeCustom A k1 = .ok ok1)
    (hk2 : pythonizeCustom A k2 = .ok ok2)
    (hk1' : pythonizeCustom A k1' = .ok ok1)
    (hv1 : pythonizeCustom A v1 = .ok ov1)
    (hv2 : pythonizeCustom A v2 = .ok ov2)
    (hv3 : pythonizeCustom A v3 = .ok ov3)
    (hh1 : ok1.hashable = true) (hh2 : ok2.hashable = true)
    (hne : PyObj.beq ok1 ok2 = false) :
    pythonizeCustom A (.map [(k1, v1), (k2, v2), (k1', v3)]) =
      .ok (.mapObj A.mapTag [(ok1, ov3), (ok2, ov2)]) := by
  simp [pythonizeCustom, runEntries, hk1, hk2, hk1', hv1, hv2, hv3,
    mapSetItem, hh1, hh2, entriesSet, hne, PyObj.beq_refl,
    Bind.bind, Outcome.bind]

/-- Witness for C6 at concrete keys `1, 2, 1` and payloads `"a","b","c"`. -/
theorem map_last_write_wins_witness :
    pythonizeCustom defaultAdapter
        (.map [(.int 1, .str "a"), (.int 2, .str "b"), (.int 1, .str "c")]) =
      .ok (.mapObj "dict" [(.int 1, .str "c"), (.int 2, .str "b")]) :=
  map_last_write_wins defaultAdapter (.int 1) (.int 2) (.int 1)
    (.str "a") (.str "b") (.str "c") (.int 1) (.int 2)
    (.str "a") (.str "b") (.str "c") rfl rfl rfl rfl rfl rfl rfl rfl rfl

/-- C8: the first failure anywhere in the recursive tree — a failing child
conversion inside a Seq or a Struct, or a failing adapter `set_item`
inside a Map — immediately aborts the whole conversion with that error;
no partial object is returned as a success and later elements are never
retried. -/
theorem error_propagation (A : Adapter) (len : Option Nat)
    (pre post : List Value) (v : Value) (e : PErr) (os : List PyObj)
    (sname fname : String) (fpre fpost : List (String × Value))
    (dpre : PythonDictSerializer)
    (mpre mpost : List (Value × Value)) (sm : PythonMapSerializer)
    (mk mv : Value) (ko vo : PyObj)
    (hpre : elemsOut A pre = .ok os)
    (hv : pythonizeCustom A v = .err e)
    (hfpre : runFields A ⟨[]⟩ fpre = .ok dpre)
    (hmpre : runEntries A ⟨[], Option.none⟩ mpre = .ok sm)
    (hko : pythonizeCustom A mk = .ok ko)
    (hvo : pythonizeCustom A mv = .ok vo)
    (hkoh : ko.hashable = false) :
    pythonizeCustom A (.seq len (pre ++ v :: post)) = .err e ∧
    (pythonizeCustom A (.seq len (pre ++ v :: post))).isOk = false ∧
    pythonizeCustom A (.struct sname (fpre ++ (fname, v) :: fpost)) = .err e ∧
    pythonizeCustom A (.map (mpre ++ (mk, mv) :: mpost)) =
      .err (.adapterFailure "unhashable type") := by
  have hseq : pythonizeCustom A (.seq len (pre ++ v :: post)) = .err e := by
    simp [pythonizeCustom, serializeSeq_eq, runElements_eq_elemsOut,
      elemsOut_append, hpre, elemsOut, hv, Bind.bind, Outcome.bind]
  refine ⟨hseq, by rw [hseq]; rfl, ?_, ?_⟩
  · simp [pythonizeCustom, runFields_append, hfpre, runFields, hv,
      Bind.bind, Outcome.bind]
  · simp [pythonizeCustom, runEntries_append, hmpre, runEntries, hko, hvo,
      mapSetItem, hkoh, Bind.bind, Outcome.bind]

/-- Witness for C8: the failing child is a Map whose key is a list
(unhashable), placed inside a Seq, a Struct and a Map. -/
theorem error_propagation_witness :
    pythonizeCustom defaultAdapter
        (.seq (Option.some 3)
          [.int 1, .map [(.seq Option.none [], .int 0)], .int 9]) =
      .err (.adapterFailure "unhashable type") ∧
    (pythonizeCustom defaultAdapter
        (.seq (Option.some 3)
          [.int 1, .map [(.seq Option.none [], .int 0)], .int 9])).isOk = false ∧
    pythonizeCustom defaultAdapter
        (.struct "S" [("f", .map [(.seq Option.none [], .int 0)])]) =
      .err (.adapterFailure "unhashable type") ∧
    pythonizeCustom defaultAdapter (.map [(.seq Option.none [], .int 0)]) =
      .err (.adapterFailure "unhashable type") :=
  error_propagation defaultAdapter (Option.some 3)
    [.int 1] [.int 9] (.map [(.seq Option.none [], .int 0)])
    (.adapterFailure "unhashable type") [.int 1]
    "S" "f" [] [] ⟨[]⟩
    [] [] ⟨[], Option.none⟩
    (.seq Option.none []) (.int 0) (.seqObj "list" []) (.int 0)
    rfl rfl rfl rfl rfl rfl rfl

/-- C3 (counterexample): with a Container Adapter binding the mapping
class tagged "custommap", the newtype-variant dispatch path still
constructs a concrete `PyDict` (tag "dict"), bypassing the adapter —
refuting "no dispatch or compound-serializer code path constructs a
concrete container type bypassing the adapter". -/
theorem newtype_variant_bypasses_adapter :
    pythonizeCustom ⟨"custommap", "customlist"⟩ (.newtypeVariant "E" "V" (.int 5)) =
      .ok (.mapObj "dict" [(.str "V", .int 5)]) ∧
    "dict" ≠ "custommap" :=
  ⟨rfl, by decide⟩

/-- C3 (amended): for every input value and every caller-supplied
Container Adapter, the produced dynamic-object tree has a shape and
ordering identical to the tree produced with the default adapter — the
outcomes are equal after erasing the concrete container classes (tags),
and failures are identical — even though the variant wrappers and the
tuple `end`s construct concrete `PyDict`/`PyTuple` objects directly. -/
theorem adapter_tree_shape_invariant (A : Adapter) (v : Value) :
    (pythonizeCustom A v).shapeO = (pythonize v).shapeO :=
  outRel_shapeO (pythonizeCustom_shape_rel A defaultAdapter v)

end Pythonize
